import Mathlib

/-!
# Verification of the `authlib` OAuth2 client session

Shallow embedding of `src/authlib/client/oauth2.py` (class `OAuth2Session`
and its `TokenError`), together with models of the small collaborator
helpers that the module imports from elsewhere in the library
(`is_secure_transport`, `generate_token`, `url_decode`,
`prepare_grant_uri`, `prepare_token_request`,
`parse_authorization_code_response`, `OAuth2Token`, `BearToken`), which
are modelled from the specification because their sources are not part of
this snapshot.

Python dictionaries with string keys/values are embedded as association
lists (`List (String × String)`), Python `None`-able values as `Option`,
raised exceptions as `Except PyError`, and the HTTP transport as an
explicit function argument from a transport call description to a
response, so that "the transport was never invoked" is expressible as the
list of emitted transport calls being empty.
-/

namespace AuthlibClient

/-- A `TokenError` object as actually constructed by `TokenError.__init__`
(lines 24-31): only the `error` attribute is ever assigned (and only when
the argument is not `None`) before the `super` call runs. -/
structure TokenErrorObj where
  error : Option String
  deriving DecidableEq, Repr

/-- Python exceptions that the embedded code can raise. -/
inductive PyError where
  | insecureTransport
  | valueError (msg : String)
  | typeError (msg : String)
  | keyError (key : String)
  | attributeError (msg : String)
  | mismatchingState
  | missingCode
  | tokenError (obj : TokenErrorObj)
  deriving DecidableEq, Repr

instance exceptDecEq {ε α : Type} [DecidableEq ε] [DecidableEq α] :
    DecidableEq (Except ε α) := fun a b =>
  match a, b with
  | .error e, .error f =>
    if h : e = f then .isTrue (congrArg Except.error h)
    else .isFalse (fun hh => h (Except.error.inj hh))
  | .ok x, .ok y =>
    if h : x = y then .isTrue (congrArg Except.ok h)
    else .isFalse (fun hh => h (Except.ok.inj hh))
  | .error _, .ok _ => .isFalse (fun hh => Except.noConfusion hh)
  | .ok _, .error _ => .isFalse (fun hh => Except.noConfusion hh)

/-! ## Character-level string helpers

These mirror the Python `str` operations used by the source
(`.lower()`, `.upper()`, `.startswith`, splitting on a separator) via
structural recursion over the character list, so that every definition in
this file reduces in the kernel. -/

/-- ASCII case folding of a string, Python `str.lower()`. -/
def lowerStr (s : String) : String :=
  String.mk (s.data.map Char.toLower)

/-- ASCII upper-casing of a string, Python `str.upper()`. -/
def upperStr (s : String) : String :=
  String.mk (s.data.map Char.toUpper)

/-- Python `s.startswith p` on strings. -/
def strStartsWith (s p : String) : Bool :=
  s.data.take p.data.length == p.data

/-- Split a character list at every occurrence of `c` (Python
`str.split(c)` on a one-character separator). -/
def splitChar (c : Char) : List Char → List (List Char)
  | [] => [[]]
  | x :: xs =>
    let r := splitChar c xs
    if x == c then [] :: r
    else
      match r with
      | [] => [[x]]
      | y :: ys => (x :: y) :: ys

/-- Break a character list at the first occurrence of `c`: the part
before it and, when `c` occurs, the part after it. -/
def breakChar (c : Char) : List Char → List Char × Option (List Char)
  | [] => ([], none)
  | x :: xs =>
    if x == c then ([], some xs)
    else
      let r := breakChar c xs
      (x :: r.1, r.2)

/-! ## Python dict embedding -/

/-- Association-list lookup, Python `d.get(k)`. -/
def pget (ps : List (String × String)) (k : String) : Option String :=
  match ps.find? (fun p => p.1 == k) with
  | some p => some p.2
  | none => none

/-- Python `d[k]`: raises `KeyError` when the key is missing. -/
def pitem (ps : List (String × String)) (k : String) : Except PyError String :=
  match pget ps k with
  | some v => Except.ok v
  | none => Except.error (.keyError k)

/-- Insert into a Python dict: an existing key keeps its position and
takes the new value, a new key is appended. -/
def pyDictInsert (d : List (String × String)) (k v : String) :
    List (String × String) :=
  if d.any (fun p => p.1 == k) then
    d.map (fun p => if p.1 == k then (k, v) else p)
  else d ++ [(k, v)]

/-- Python `dict(pairs)`: first-insertion order, last value wins. -/
def pyDict (l : List (String × String)) : List (String × String) :=
  l.foldl (fun d p => pyDictInsert d p.1 p.2) []

/-- Truthiness of a Python string-or-`None` value: `None` and the empty
string are falsy. -/
def truthyS : Option String → Bool
  | none => false
  | some s => s != ""

/-- Replace a Python `None` by the empty string, keep a string. -/
def pyOrEmpty : Option String → String
  | none => ""
  | some s => s

/-- Python `kwargs.get(k, default)` where stored values may themselves be
`None`: a missing key yields the (string) default, a present key yields
its stored value. -/
def kwGet (kwargs : List (String × Option String)) (k d : String) :
    Option String :=
  match kwargs.find? (fun p => p.1 == k) with
  | some p => p.2
  | none => some d

/-! ## Modelled collaborators (sources not in this snapshot) -/

/-- Modelled from the spec: the secure-transport predicate
`is_secure_transport` takes a URL and decides whether it uses a secure
scheme (`https`). -/
def is_secure_transport (url : String) : Bool :=
  strStartsWith (lowerStr url) "https://"

/-- Modelled from the spec: the URL-query decoder `url_decode` turns an
encoded string into ordered key/value pairs, splitting fields on `&` and
each field at its first `=`. -/
def url_decode (s : String) : List (String × String) :=
  (splitChar '&' s.data).filterMap (fun kv =>
    match kv with
    | [] => none
    | _ =>
      let r := breakChar '=' kv
      some (String.mk r.1, String.mk ((r.2).getD [])))

/-- The URL-safe alphabet used for generated tokens. -/
def tokenAlphabet : List Char :=
  "0123456789ABCDEFGHIJKLMNOPQRSTUVWXYZabcdefghijklmnopqrstuvwxyz".data

/-- Modelled from the spec: `generate_token` produces a random opaque
URL-safe token; randomness is supplied by the `rng` argument choosing one
alphabet character per position. -/
def generate_token (rng : Nat → Nat) (length : Nat) : String :=
  String.mk ((List.range length).map
    (fun i => tokenAlphabet.getD (rng i % tokenAlphabet.length) 'A'))

/-- A URI with its query parameters kept structured, as produced by the
grant-URI builder. -/
structure Uri where
  base : String
  queryParams : List (String × String)
  deriving DecidableEq, Repr

/-- Modelled from the spec: `prepare_grant_uri` merges redirect URI,
scope, state and extra parameters into the endpoint URL. -/
def prepare_grant_uri (url : String) (redirect_uri : Option String)
    (scope : Option String) (state : String)
    (kwargs : List (String × String)) : Uri :=
  let ps :=
    (match redirect_uri with | some r => [("redirect_uri", r)] | none => [])
    ++ (match scope with | some sc => [("scope", sc)] | none => [])
    ++ [("state", state)] ++ kwargs
  ⟨url, ps⟩

/-- Encode key/value pairs as a query string. -/
def encodePairs (ps : List (String × String)) : String :=
  String.intercalate "&" (ps.map (fun p => p.1 ++ "=" ++ p.2))

/-- Render keyword-argument values (which may be Python `None`) as the
strings the form encoder would produce. -/
def encodeKw (kwargs : List (String × Option String)) :
    List (String × String) :=
  kwargs.map (fun p => (p.1, match p.2 with | some v => v | none => "None"))

/-- Modelled from the spec: `prepare_token_request` builds the encoded
`authorization_code` token-request body from code, client id, redirect
URI and extra parameters, extending any caller-provided body seed. -/
def prepare_token_request (code : Option String) (body : String)
    (client_id : Option String) (redirect_uri : Option String)
    (kwargs : List (String × String)) : String :=
  let ps := [("grant_type", "authorization_code")]
    ++ (match code with | some c => [("code", c)] | none => [])
    ++ (match client_id with | some c => [("client_id", c)] | none => [])
    ++ (match redirect_uri with | some r => [("redirect_uri", r)] | none => [])
    ++ kwargs
  if body == "" then encodePairs ps else body ++ "&" ++ encodePairs ps

/-- The query-parameter list of a URL string (everything after the first
`?`, decoded). -/
def urlQuery (u : String) : List (String × String) :=
  match breakChar '?' u.data with
  | (_, some q) => url_decode (String.mk q)
  | (_, none) => []

/-- Modelled from the spec: `parse_authorization_code_response` parses
the provider redirect URL into its parameters, failing with a
missing-code error when no `code` is present and with a distinct
state-mismatch error when an expected state is supplied and differs from
the returned one. -/
def parse_authorization_code_response (u : String) (state : Option String) :
    Except PyError (List (String × String)) :=
  let ps := urlQuery u
  match pget ps "code" with
  | none => Except.error .missingCode
  | some _ =>
    match state with
    | none => Except.ok ps
    | some st =>
      if pget ps "state" == some st then Except.ok ps
      else Except.error .mismatchingState

/-- Modelled from the spec: `OAuth2Token` wraps the parsed token-endpoint
response parameters. -/
structure OAuth2Token where
  params : List (String × String)
  deriving DecidableEq, Repr

/-- The `access_token` field of a token. -/
def OAuth2Token.access_token (t : OAuth2Token) : Option String :=
  pget t.params "access_token"

/-- The `token_type` field of a token. -/
def OAuth2Token.token_type (t : OAuth2Token) : Option String :=
  pget t.params "token_type"

/-! ## HTTP-level values -/

/-- HTTP auth credentials: `HTTPBasicAuth(user, password)` or an opaque
caller-supplied auth object. -/
inductive Auth where
  | basic (username : String) (password : String)
  | custom (tag : Nat)
  deriving DecidableEq, Repr

/-- An HTTP response as seen by the client: a status code and the JSON
object the body decodes to, when it is JSON. -/
structure Response where
  status_code : Nat
  jsonBody : Option (List (String × String))
  deriving DecidableEq, Repr

/-- Python `resp.json()`: raises when the body is not a JSON object. -/
def Response.jsonE (r : Response) : Except PyError (List (String × String)) :=
  match r.jsonBody with
  | some ps => Except.ok ps
  | none => Except.error (.valueError "No JSON object could be decoded")

/-- An invocation of the underlying HTTP transport (`self.post` /
`self.get`) by `fetch_access_token`. -/
inductive TransportCall where
  | post (url : String) (data : List (String × String))
      (headers : List (String × String)) (auth : Option Auth)
  | get (url : String) (params : List (String × String))
      (headers : List (String × String)) (auth : Option Auth)
  deriving DecidableEq, Repr

/-- The module-level default headers (lines 18-21). -/
def DEFAULT_HEADERS : List (String × String) :=
  [("Accept", "application/json"),
   ("Content-Type", "application/x-www-form-urlencoded;charset=UTF-8")]

/-! ## TokenError -/

/-- Python `super.__init__` accepts at most two positional arguments
(`type` and optionally `obj`); any more raise `TypeError`. This is what
the unbound `super(TokenError)` object's `__init__` does when called. -/
def superDunderInit (posArgs : Nat) : Except PyError Unit :=
  if posArgs ≤ 2 then Except.ok ()
  else Except.error (.typeError "super expected at most 2 arguments")

/-- Embeds `TokenError.__init__` (lines 24-31): assigns `self.error` when
`error` is not `None`, then evaluates
`super(TokenError).__init__(description, status_code, uri, state)` —
four positional arguments handed to the unbound super object's own
initializer, which raises `TypeError` before the object is returned. -/
def TokenError.init (error : Option String) (_description : Option String)
    (_status_code : Option Nat) (_uri : List (Option String))
    (_state : Option String) : Except PyError TokenErrorObj := do
  let obj : TokenErrorObj := ⟨error⟩
  superDunderInit 4
  pure obj

/-! ## The session object -/

/-- The mutable state of an `OAuth2Session` (constructor, lines 35-72).
Hooks are identified by numeric identity (Python stores the function
objects themselves in per-phase sets); each phase's registered hooks are
kept in first-insertion order. -/
structure OAuth2Session where
  client_id : Option String
  client_secret : Option String
  auto_refresh_url : Option String
  auto_refresh_kwargs : Option (List (String × String))
  scope : Option String
  redirect_uri : Option String
  token : Option (List (String × String))
  token_placement : String
  state : Option String
  token_updater : Option Nat
  atrHooks : List Nat
  rtrHooks : List Nat
  prHooks : List Nat
  deriving DecidableEq, Repr

/-- Truthiness of the stored token: `None` and the empty dict are falsy. -/
def truthyTok : Option (List (String × String)) → Bool
  | none => false
  | some l => !l.isEmpty

/-- The keys of the `compliance_hook` dict set up by the constructor. -/
def hookPhases : List String :=
  ["access_token_response", "refresh_token_response", "protected_request"]

/-- Python `set.add`: append the hook unless it is already present. -/
def addHook (l : List Nat) (h : Nat) : List Nat :=
  if h ∈ l then l else l ++ [h]

/-- The hook set stored for a known phase name. -/
def phaseHooks (s : OAuth2Session) (phase : String) : List Nat :=
  if phase == "access_token_response" then s.atrHooks
  else if phase == "refresh_token_response" then s.rtrHooks
  else s.prHooks

/-- Embeds `register_compliance_hook` (lines 184-195): an unknown phase
raises `ValueError` (leaving the session untouched), a known phase adds
the hook to that phase's set. The returned pair is the session state
after the call and the exception raised, if any. -/
def register_compliance_hook (s : OAuth2Session) (hook_type : String)
    (hook : Nat) : OAuth2Session × Option PyError :=
  if hook_type ∉ hookPhases then
    (s, some (.valueError "Hook type %s is not in %s."))
  else if hook_type == "access_token_response" then
    ({ s with atrHooks := addHook s.atrHooks hook }, none)
  else if hook_type == "refresh_token_response" then
    ({ s with rtrHooks := addHook s.rtrHooks hook }, none)
  else
    ({ s with prHooks := addHook s.prHooks hook }, none)

/-- The token classes the session can dispatch to. -/
inductive TokenCls where
  | bear
  deriving DecidableEq, Repr

/-- Embeds the `token_cls` property (lines 74-81): `None` for a falsy
token, the bearer class for (case-insensitive) `bearer`, and an implicit
`None` for every other token type. Reading `token_type` from a token
dict lacking it raises `KeyError`. -/
def token_cls (s : OAuth2Session) : Except PyError (Option TokenCls) :=
  if !truthyTok s.token then Except.ok none
  else
    match pitem ((s.token).getD []) "token_type" with
    | Except.error e => Except.error e
    | Except.ok tt =>
      if lowerStr tt == "bearer" then Except.ok (some .bear)
      else Except.ok none

/-- Embeds `authorization_url` (lines 83-91): a missing state is replaced
by a freshly generated token, and the grant URI is built from the
session's redirect URI and scope plus the extra parameters. -/
def authorization_url (s : OAuth2Session) (url : String)
    (state : Option String) (kwargs : List (String × String))
    (rng : Nat → Nat) : Uri × String :=
  let st := match state with
    | none => generate_token rng 30
    | some v => v
  (prepare_grant_uri url s.redirect_uri s.scope st kwargs, st)

/-! ## fetch_access_token -/

/-- Embeds the auth-determination block of `fetch_access_token`
(lines 119-129): an explicit `auth` wins; otherwise a truthy
`client_id` keyword argument yields basic auth with the client secret
defaulting to the empty string; otherwise a truthy `username` yields
basic auth with the password, raising `ValueError` when the password is
`None`. -/
def computeAuth (auth : Option Auth) (kwargs : List (String × Option String))
    (username password : Option String) : Except PyError (Option Auth) :=
  match auth with
  | some a => Except.ok (some a)
  | none =>
    let client_id := kwGet kwargs "client_id" ""
    if truthyS client_id then
      let client_secret := pyOrEmpty (kwGet kwargs "client_secret" "")
      Except.ok (some (.basic (pyOrEmpty client_id) client_secret))
    else if truthyS username then
      match password with
      | none => Except.error (.valueError "Username was supplied, but not password.")
      | some pw => Except.ok (some (.basic (pyOrEmpty username) pw))
    else Except.ok none

/-- The arguments of a `fetch_access_token` call (line 93-96); `kwargs`
holds the extra keyword arguments (values may be Python `None`). -/
structure FetchArgs where
  url : Option String
  code : Option String
  authorization_response : Option String
  body : String
  auth : Option Auth
  username : Option String
  password : Option String
  method : String
  headers : Option (List (String × String))
  kwargs : List (String × Option String)
  deriving Repr

/-- The observable outcome of a `fetch_access_token` call: the returned
token or raised exception, the transport calls that were emitted, and the
session state after the call. -/
structure FetchResult where
  result : Except PyError (Option OAuth2Token)
  calls : List TransportCall
  session : OAuth2Session
  deriving Repr

/-- Embeds `fetch_access_token` (lines 93-156). The HTTP transport is
the `transport` argument; compliance hooks are resolved through
`atrEnv` from their numeric identities. -/
def fetch_access_token (s : OAuth2Session) (a : FetchArgs)
    (atrEnv : Nat → Response → Response)
    (transport : TransportCall → Response) : FetchResult :=
  if a.url.isNone && truthyS a.authorization_response then
    ⟨Except.ok none, [], s⟩
  else
    match a.url with
    | none => ⟨Except.error (.attributeError "NoneType object has no attribute lower"), [], s⟩
    | some url =>
      if !is_secure_transport url then
        ⟨Except.error .insecureTransport, [], s⟩
      else
        let codeE : Except PyError (Option String) :=
          if !truthyS a.code && truthyS a.authorization_response then
            match parse_authorization_code_response
                (pyOrEmpty a.authorization_response) s.state with
            | Except.error e => Except.error e
            | Except.ok ps =>
              match pget ps "code" with
              | some c => Except.ok (some c)
              | none => Except.error (.keyError "code")
          else Except.ok a.code
        match codeE with
        | Except.error e => ⟨Except.error e, [], s⟩
        | Except.ok code =>
          let body := prepare_token_request code a.body s.client_id
              s.redirect_uri (encodeKw a.kwargs)
          match computeAuth a.auth a.kwargs a.username a.password with
          | Except.error e => ⟨Except.error e, [], s⟩
          | Except.ok auth =>
            let headers := match a.headers with
              | none => DEFAULT_HEADERS
              | some h => h
            let call :=
              if upperStr a.method == "POST" then
                TransportCall.post url (pyDict (url_decode body)) headers auth
              else
                TransportCall.get url (pyDict (url_decode body)) headers auth
            let resp := s.atrHooks.foldl (fun r h => atrEnv h r) (transport call)
            match resp.jsonE with
            | Except.error e => ⟨Except.error e, [call], s⟩
            | Except.ok params =>
              if (pget params "error").isNone then
                ⟨Except.ok (some ⟨params⟩), [call], s⟩
              else
                match TokenError.init (pget params "error")
                    (pget params "description") (some resp.status_code)
                    [pget params "error_uri"] (pget params "state") with
                | Except.error e => ⟨Except.error e, [call], s⟩
                | Except.ok obj => ⟨Except.error (.tokenError obj), [call], s⟩

/-! ## request -/

/-- The `(url, headers, data)` triple threaded through token attachment
and the `protected_request` hooks. -/
abbrev Triple := String × Option (List (String × String)) × Option String

/-- The delegation to the underlying generic HTTP session at the end of
`request` (lines 181-182). -/
structure SuperRequestCall where
  method : String
  url : String
  headers : Option (List (String × String))
  data : Option String
  deriving DecidableEq, Repr

/-- Modelled from the spec: `BearToken.add_token` embeds the access token
per the placement policy — an `Authorization: Bearer` header, a query
parameter, or a body field — without touching the other components;
an unknown placement is a usage error. -/
def add_bearer_token (access_token : String) (url : String)
    (headers : Option (List (String × String))) (data : Option String)
    (placement : String) : Except PyError Triple :=
  if placement == "headers" then
    Except.ok
      (url, some ((headers.getD []) ++ [("Authorization", "Bearer " ++ access_token)]), data)
  else if placement == "query" then
    let sep := if (breakChar '?' url.data).2.isSome then "&" else "?"
    Except.ok (url ++ sep ++ "access_token=" ++ access_token, headers, data)
  else if placement == "body" then
    let d := pyOrEmpty data
    let d := if d == "" then "access_token=" ++ access_token
      else d ++ "&access_token=" ++ access_token
    Except.ok (url, headers, some d)
  else Except.error (.valueError "Invalid token placement.")

/-- Embeds `request` (lines 168-182): with a truthy stored token and
`withhold_token=False`, the token class is resolved and instantiated
(calling the implicit `None` for an unrecognized type raises
`TypeError`), the token is attached, every `protected_request` hook is
applied in sequence, and the result is handed to the underlying
session's `request`. The returned value is that delegated call, or the
exception raised before it. -/
def request (s : OAuth2Session) (prEnv : Nat → Triple → Triple)
    (method url : String) (data : Option String)
    (headers : Option (List (String × String))) (withhold_token : Bool) :
    Except PyError SuperRequestCall :=
  if truthyTok s.token && !withhold_token then
    match token_cls s with
    | Except.error e => Except.error e
    | Except.ok cls =>
      match pitem ((s.token).getD []) "access_token" with
      | Except.error e => Except.error e
      | Except.ok accessTok =>
        match cls with
        | none => Except.error (.typeError "NoneType object is not callable")
        | some TokenCls.bear =>
          match add_bearer_token accessTok url headers data
              s.token_placement with
          | Except.error e => Except.error e
          | Except.ok trip =>
            let trip := s.prHooks.foldl (fun t h => prEnv h t) trip
            Except.ok ⟨method, trip.1, trip.2.1, trip.2.2⟩
  else
    Except.ok ⟨method, url, headers, data⟩

/-! ## Shared concrete fixtures -/

/-- A freshly constructed session with all-default arguments. -/
def emptySession : OAuth2Session :=
  ⟨none, none, none, none, none, none, none, "headers", none, none, [], [], []⟩

/-- A successful token-endpoint response. -/
def respOK : Response :=
  ⟨200, some [("access_token", "tok"), ("token_type", "bearer")]⟩

/-- A failing token-endpoint response carrying the full error payload. -/
def respErr : Response :=
  ⟨400, some [("error", "invalid_grant"), ("description", "bad code"),
    ("error_uri", "https://err.example"), ("state", "xyz")]⟩

/-- A plain token-exchange call against an `https` endpoint. -/
def argsTok : FetchArgs :=
  ⟨some "https://provider/token", some "abc123", none, "", none, none, none,
    "POST", none, []⟩

/-- The same call against a plain `http` endpoint. -/
def argsInsecure : FetchArgs :=
  ⟨some "http://provider/token", some "abc123", none, "", none, none, none,
    "POST", none, []⟩

/-- The same call asking for the `PUT` method. -/
def argsPut : FetchArgs :=
  ⟨some "https://provider/token", some "abc123", none, "", none, none, none,
    "PUT", none, []⟩

/-! ## Theorems -/

/-- Helper: `fetch_access_token` never mutates the session state. -/
theorem fetch_session_eq (s : OAuth2Session) (a : FetchArgs)
    (atrEnv : Nat → Response → Response)
    (transport : TransportCall → Response) :
    (fetch_access_token s a atrEnv transport).session = s := by
  unfold fetch_access_token
  repeat' split <;> try rfl
  all_goals dsimp only
  repeat' split <;> try rfl

/-- C1: for every endpoint URL whose scheme is not secure,
`fetch_access_token` raises `InsecureTransportError` and the underlying
HTTP transport (`post`/`get`) is never invoked. -/
theorem fetch_insecure_raises_before_transport (s : OAuth2Session)
    (a : FetchArgs) (atrEnv : Nat → Response → Response)
    (transport : TransportCall → Response) (u : String)
    (hurl : a.url = some u) (hsec : is_secure_transport u = false) :
    (fetch_access_token s a atrEnv transport).result
        = Except.error .insecureTransport ∧
    (fetch_access_token s a atrEnv transport).calls = [] := by
  unfold fetch_access_token
  simp [hurl, hsec]

/-- Witness for C1 at the concrete insecure endpoint
`http://provider/token`. -/
theorem fetch_insecure_witness :
    (fetch_access_token emptySession argsInsecure (fun _ r => r)
        (fun _ => respOK)).result = Except.error .insecureTransport ∧
    (fetch_access_token emptySession argsInsecure (fun _ r => r)
        (fun _ => respOK)).calls = [] :=
  fetch_insecure_raises_before_transport emptySession argsInsecure
    (fun _ r => r) (fun _ => respOK) "http://provider/token" rfl (by decide)

/-- C2 (failing input): on a token-endpoint response with an `error`
field, the attempt to raise `TokenError` itself raises `TypeError` —
`TokenError.__init__` hands four positional arguments to the unbound
`super(TokenError)` object (line 30 lacks the `self` argument), so the
caller never receives a `TokenError` carrying the error code,
description, error URI, status and state (the error URI is additionally
wrapped into a one-element tuple by the trailing comma on line 154). -/
theorem fetch_error_response_raises_typeError :
    (fetch_access_token emptySession argsTok (fun _ r => r)
        (fun _ => respErr)).result
      = Except.error (.typeError "super expected at most 2 arguments") := by
  decide

/-- C8: a `fetch_access_token` call that raises an error leaves the
session's stored token unchanged. -/
theorem fetch_failure_leaves_token (s : OAuth2Session) (a : FetchArgs)
    (atrEnv : Nat → Response → Response)
    (transport : TransportCall → Response) (e : PyError)
    (_herr : (fetch_access_token s a atrEnv transport).result
        = Except.error e) :
    (fetch_access_token s a atrEnv transport).session.token = s.token := by
  rw [fetch_session_eq]

/-- Witness for C8: a failing fetch against an insecure endpoint, from a
session holding a previously stored token, keeps that token. -/
theorem fetch_failure_leaves_token_witness :
    (fetch_access_token
        { emptySession with token := some [("access_token", "old"), ("token_type", "bearer")] }
        argsInsecure (fun _ r => r) (fun _ => respOK)).session.token
      = some [("access_token", "old"), ("token_type", "bearer")] :=
  fetch_failure_leaves_token
    { emptySession with token := some [("access_token", "old"), ("token_type", "bearer")] }
    argsInsecure (fun _ r => r) (fun _ => respOK) .insecureTransport (by decide)

/-- C3: a token-endpoint JSON response without an `error` field, with no
`access_token_response` hooks registered, is returned as a Token whose
`access_token` and `token_type` fields are exactly the corresponding
fields of the JSON body. -/
theorem fetch_success_round_trip (s : OAuth2Session) (a : FetchArgs)
    (atrEnv : Nat → Response → Response) (resp : Response)
    (ps : List (String × String)) (u : String) (au : Option Auth)
    (hhooks : s.atrHooks = [])
    (hurl : a.url = some u) (hsec : is_secure_transport u = true)
    (hresp : a.authorization_response = none)
    (hauth : computeAuth a.auth a.kwargs a.username a.password
        = Except.ok au)
    (hjson : resp.jsonBody = some ps) (herr : pget ps "error" = none) :
    (fetch_access_token s a atrEnv (fun _ => resp)).result
        = Except.ok (some ⟨ps⟩) ∧
    OAuth2Token.access_token ⟨ps⟩ = pget ps "access_token" ∧
    OAuth2Token.token_type ⟨ps⟩ = pget ps "token_type" := by
  refine ⟨?_, rfl, rfl⟩
  unfold fetch_access_token
  simp [hurl, hsec, hresp, hauth, hhooks, hjson, herr, truthyS,
    Response.jsonE]

/-- Witness for C3 at the concrete response
`{"access_token": "tok", "token_type": "bearer"}`. -/
theorem fetch_success_round_trip_witness :
    (fetch_access_token emptySession argsTok (fun _ r => r)
        (fun _ => respOK)).result
      = Except.ok (some ⟨[("access_token", "tok"), ("token_type", "bearer")]⟩) ∧
    OAuth2Token.access_token ⟨[("access_token", "tok"), ("token_type", "bearer")]⟩
      = pget [("access_token", "tok"), ("token_type", "bearer")] "access_token" ∧
    OAuth2Token.token_type ⟨[("access_token", "tok"), ("token_type", "bearer")]⟩
      = pget [("access_token", "tok"), ("token_type", "bearer")] "token_type" :=
  fetch_success_round_trip emptySession argsTok (fun _ r => r) respOK
    [("access_token", "tok"), ("token_type", "bearer")]
    "https://provider/token" none rfl rfl (by decide) rfl rfl rfl (by decide)

/-- C4: auth determination in `fetch_access_token` — an explicit `auth`
argument is used unchanged; otherwise a truthy `client_id` keyword yields
HTTP Basic auth from client id and client secret with the secret
defaulting to the empty string (never a missing-value error); otherwise a
truthy `username` yields HTTP Basic auth from username and password, with
`ValueError` raised when the password is absent. -/
theorem fetch_auth_determination (kwargs : List (String × Option String))
    (username password : Option String) :
    (∀ a0 : Auth, computeAuth (some a0) kwargs username password
        = Except.ok (some a0)) ∧
    (truthyS (kwGet kwargs "client_id" "") = true →
      computeAuth none kwargs username password
        = Except.ok (some (.basic (pyOrEmpty (kwGet kwargs "client_id" ""))
            (pyOrEmpty (kwGet kwargs "client_secret" ""))))) ∧
    (truthyS (kwGet kwargs "client_id" "") = false →
      truthyS username = true → password = none →
      computeAuth none kwargs username password
        = Except.error (.valueError "Username was supplied, but not password.")) ∧
    (∀ pw : String, truthyS (kwGet kwargs "client_id" "") = false →
      truthyS username = true → password = some pw →
      computeAuth none kwargs username password
        = Except.ok (some (.basic (pyOrEmpty username) pw))) := by
  refine ⟨fun a0 => rfl, fun hcid => ?_, fun hcid hu hpw => ?_,
    fun pw hcid hu hpw => ?_⟩
  · simp [computeAuth, hcid]
  · simp [computeAuth, hcid, hu, hpw]
  · simp [computeAuth, hcid, hu, hpw]

/-- Witness for C4 instantiating all four branches at concrete
arguments. -/
theorem fetch_auth_determination_witness :
    computeAuth (some (.custom 7)) [] none none
        = Except.ok (some (.custom 7)) ∧
    computeAuth none [("client_id", some "cid")] none none
        = Except.ok (some (.basic "cid" "")) ∧
    computeAuth none [] (some "alice") none
        = Except.error (.valueError "Username was supplied, but not password.") ∧
    computeAuth none [] (some "alice") (some "pw")
        = Except.ok (some (.basic "alice" "pw")) :=
  ⟨(fetch_auth_determination [] none none).1 (.custom 7),
   (fetch_auth_determination [("client_id", some "cid")] none none).2.1
     (by decide),
   (fetch_auth_determination [] (some "alice") none).2.2.1
     (by decide) (by decide) rfl,
   (fetch_auth_determination [] (some "alice") (some "pw")).2.2.2 "pw"
     (by decide) (by decide) rfl⟩

/-- C10: `fetch_access_token` dispatches on the upper-cased method — any
method other than `POST` is actually sent as an HTTP GET carrying the
decoded body as query parameters, and only `POST` sends the requested
method with the decoded body as form data. -/
theorem fetch_method_dispatch (s : OAuth2Session) (a : FetchArgs)
    (atrEnv : Nat → Response → Response)
    (transport : TransportCall → Response) (u : String) (au : Option Auth)
    (hurl : a.url = some u) (hsec : is_secure_transport u = true)
    (hresp : a.authorization_response = none)
    (hauth : computeAuth a.auth a.kwargs a.username a.password
        = Except.ok au) :
    (upperStr a.method ≠ "POST" →
      (fetch_access_token s a atrEnv transport).calls
        = [TransportCall.get u
            (pyDict (url_decode (prepare_token_request a.code a.body
              s.client_id s.redirect_uri (encodeKw a.kwargs))))
            (match a.headers with | none => DEFAULT_HEADERS | some h => h)
            au]) ∧
    (upperStr a.method = "POST" →
      (fetch_access_token s a atrEnv transport).calls
        = [TransportCall.post u
            (pyDict (url_decode (prepare_token_request a.code a.body
              s.client_id s.redirect_uri (encodeKw a.kwargs))))
            (match a.headers with | none => DEFAULT_HEADERS | some h => h)
            au]) := by
  constructor <;> intro hm <;>
    · unfold fetch_access_token
      simp [hurl, hsec, hresp, hauth, hm, truthyS]
      all_goals repeat' split <;> try rfl

/-- Witness for C10: a `PUT` token request is actually issued as a GET
carrying the decoded body as query parameters. -/
theorem fetch_method_dispatch_witness :
    (fetch_access_token emptySession argsPut (fun _ r => r)
        (fun _ => respOK)).calls
      = [TransportCall.get "https://provider/token"
          (pyDict (url_decode (prepare_token_request (some "abc123") ""
            none none (encodeKw []))))
          DEFAULT_HEADERS none] :=
  (fetch_method_dispatch emptySession argsPut (fun _ r => r)
      (fun _ => respOK) "https://provider/token" none rfl (by decide) rfl
      rfl).1 (by decide)

/-- C5: with no explicit state, `authorization_url` generates a fresh
state token that is non-empty and appears verbatim as the `state` query
parameter of the returned URI. -/
theorem authorization_url_fresh_state (s : OAuth2Session) (url : String)
    (kwargs : List (String × String)) (rng : Nat → Nat) :
    (authorization_url s url none kwargs rng).2 ≠ "" ∧
    pget (authorization_url s url none kwargs rng).1.queryParams "state"
      = some (authorization_url s url none kwargs rng).2 := by
  constructor
  · intro h
    have h30 : (generate_token rng 30).data.length = 30 := by
      simp [generate_token]
    have h0 : (authorization_url s url none kwargs rng).2
        = generate_token rng 30 := rfl
    rw [h0] at h
    rw [h] at h30
    exact absurd h30 (by decide)
  · cases hred : s.redirect_uri <;> cases hsc : s.scope <;>
      simp [authorization_url, prepare_grant_uri, pget, hred, hsc]

/-- Witness for C5 at a concrete endpoint and random stream. -/
theorem authorization_url_fresh_state_witness :
    (authorization_url emptySession "https://provider/auth" none []
        (fun n => n)).2 ≠ "" ∧
    pget (authorization_url emptySession "https://provider/auth" none []
        (fun n => n)).1.queryParams "state"
      = some (authorization_url emptySession "https://provider/auth" none []
          (fun n => n)).2 :=
  authorization_url_fresh_state emptySession "https://provider/auth" []
    (fun n => n)

/-- The hook being added is in the set afterwards. -/
theorem mem_addHook (l : List Nat) (h : Nat) : h ∈ addHook l h := by
  by_cases hm : h ∈ l <;> simp [addHook, hm]

/-- Adding the same hook twice is a no-op beyond the first addition. -/
theorem addHook_idem (l : List Nat) (h : Nat) :
    addHook (addHook l h) h = addHook l h := by
  by_cases hm : h ∈ l <;> simp [addHook, hm]

/-- C6: `register_compliance_hook` raises `ValueError` for any phase name
outside the fixed set and leaves the registry unchanged; for a known
phase it adds the hook to that phase's set without raising, and a second
registration of the same hook has no further effect. -/
theorem register_compliance_hook_spec (s : OAuth2Session) (phase : String)
    (hook : Nat) :
    (phase ∉ hookPhases →
      register_compliance_hook s phase hook
        = (s, some (.valueError "Hook type %s is not in %s."))) ∧
    (phase ∈ hookPhases →
      (register_compliance_hook s phase hook).2 = none ∧
      hook ∈ phaseHooks (register_compliance_hook s phase hook).1 phase ∧
      register_compliance_hook (register_compliance_hook s phase hook).1
          phase hook
        = register_compliance_hook s phase hook) := by
  refine ⟨fun h => by simp [register_compliance_hook, h], fun h => ?_⟩
  simp only [hookPhases, List.mem_cons, List.not_mem_nil, or_false] at h
  rcases h with h | h | h <;> subst h <;>
    exact ⟨by simp [register_compliance_hook, hookPhases],
      by simp [register_compliance_hook, hookPhases, phaseHooks, mem_addHook],
      by simp [register_compliance_hook, hookPhases, addHook_idem]⟩

/-- Witness for C6: an unknown phase errors and leaves the session
untouched; a known phase accepts the hook and re-registering it is a
no-op. -/
theorem register_compliance_hook_witness :
    register_compliance_hook emptySession "bogus" 1
      = (emptySession, some (.valueError "Hook type %s is not in %s.")) ∧
    ((register_compliance_hook emptySession "protected_request" 7).2 = none ∧
     7 ∈ phaseHooks
        (register_compliance_hook emptySession "protected_request" 7).1
        "protected_request" ∧
     register_compliance_hook
        (register_compliance_hook emptySession "protected_request" 7).1
        "protected_request" 7
       = register_compliance_hook emptySession "protected_request" 7) :=
  ⟨(register_compliance_hook_spec emptySession "bogus" 1).1 (by decide),
   (register_compliance_hook_spec emptySession "protected_request" 7).2
     (by decide)⟩

/-- C7: with two distinct hooks registered on `protected_request` and a
stored bearer token, `request` applies both hooks in order to the
token-carrying triple and delegates the twice-transformed url, headers
and data to the underlying transport. -/
theorem request_two_hooks_applied (s : OAuth2Session)
    (prEnv : Nat → Triple → Triple) (method url : String)
    (data : Option String) (headers : Option (List (String × String)))
    (tk : List (String × String)) (tt accessTok : String) (h1 h2 : Nat)
    (trip : Triple)
    (htok : s.token = some tk)
    (htt : pget tk "token_type" = some tt)
    (hbear : lowerStr tt = "bearer")
    (hat : pget tk "access_token" = some accessTok)
    (hhooks : s.prHooks = [h1, h2]) (_hne : h1 ≠ h2)
    (hadd : add_bearer_token accessTok url headers data s.token_placement
        = Except.ok trip) :
    request s prEnv method url data headers false
      = Except.ok ⟨method, (prEnv h2 (prEnv h1 trip)).1,
          (prEnv h2 (prEnv h1 trip)).2.1, (prEnv h2 (prEnv h1 trip)).2.2⟩ := by
  have htk : tk ≠ [] := by
    intro hnil
    subst hnil
    simp [pget] at htt
  have hie : tk.isEmpty = false := by
    cases tk
    · exact absurd rfl htk
    · rfl
  unfold request token_cls
  simp [htok, truthyTok, hie, pitem, htt, hbear, hat, hadd, hhooks]

/-- Witness for C7 with hooks 1 and 2 both rewriting the URL. -/
theorem request_two_hooks_witness :
    request
        { emptySession with
            token := some [("access_token", "T"), ("token_type", "Bearer")],
            prHooks := [1, 2] }
        (fun h t => (t.1 ++ (if h == 1 then "/one" else "/two"), t.2.1, t.2.2))
        "GET" "https://api/x" none none false
      = Except.ok ⟨"GET", "https://api/x/one/two",
          some [("Authorization", "Bearer T")], none⟩ :=
  request_two_hooks_applied
    { emptySession with
        token := some [("access_token", "T"), ("token_type", "Bearer")],
        prHooks := [1, 2] }
    (fun h t => (t.1 ++ (if h == 1 then "/one" else "/two"), t.2.1, t.2.2))
    "GET" "https://api/x" none none
    [("access_token", "T"), ("token_type", "Bearer")] "Bearer" "T" 1 2
    ("https://api/x", some [("Authorization", "Bearer T")], none)
    rfl rfl (by decide) rfl rfl (by decide) (by decide)

/-- C9: a stored token whose `token_type` is not (case-insensitively)
`bearer` makes `request` raise synchronously — the implicit `None`
returned by `token_cls` is called, raising `TypeError` — so the
underlying transport is never reached and attachment is not silently
skipped. -/
theorem request_unrecognized_token_type_errors (s : OAuth2Session)
    (prEnv : Nat → Triple → Triple) (method url : String)
    (data : Option String) (headers : Option (List (String × String)))
    (tk : List (String × String)) (tt : String)
    (htok : s.token = some tk)
    (htt : pget tk "token_type" = some tt)
    (hbear : lowerStr tt ≠ "bearer") :
    ∃ e, request s prEnv method url data headers false
        = Except.error e := by
  have htk : tk ≠ [] := by
    intro hnil
    subst hnil
    simp [pget] at htt
  have hie : tk.isEmpty = false := by
    cases tk
    · exact absurd rfl htk
    · rfl
  unfold request token_cls
  cases hat : pget tk "access_token" <;>
    simp [htok, truthyTok, hie, pitem, htt, hbear, hat]

/-- Witness for C9 with the unrecognized token type `MAC`. -/
theorem request_unrecognized_token_type_witness :
    ∃ e, request
        { emptySession with
            token := some [("access_token", "T"), ("token_type", "MAC")] }
        (fun _ t => t) "GET" "https://api/x" none none false
      = Except.error e :=
  request_unrecognized_token_type_errors
    { emptySession with
        token := some [("access_token", "T"), ("token_type", "MAC")] }
    (fun _ t => t) "GET" "https://api/x" none none
    [("access_token", "T"), ("token_type", "MAC")] "MAC" rfl rfl (by decide)

end AuthlibClient
